import Mathlib

set_option autoImplicit false
set_option maxHeartbeats 1000000

/-!
Shallow embedding of the drone-viewer application core (src/app.py):
the SRT telemetry parser `parse_srt`, the EXIF GPS extractor
`extract_gps_from_image` with its inner `dms_to_decimal`, and the pure
geometry of `create_map` (center/zoom aggregation, marker layers, and the
timestamp-to-seconds conversion).  Strings are modelled as lists of
characters, Python floats as rationals (the decimal literals involved are
exact in `ℚ`), and Python exceptions as `Except`/`Option` results.
-/

abbrev Chars := List Char

/-- Whitespace recognized by Python `str.split()` with no arguments
(space, tab, newline, carriage return, vertical tab, form feed). -/
def isPySpace (c : Char) : Bool :=
  c = ' ' || c = '\t' || c = '\n' || c = '\r' || c = Char.ofNat 11 || c = Char.ofNat 12

/-- Character class of the regex escape `\s` (ASCII fragment). -/
def isReSpace (c : Char) : Bool :=
  c = ' ' || c = '\t' || c = '\n' || c = '\r' || c = Char.ofNat 11 || c = Char.ofNat 12

/-- Value of a list of decimal digit characters, most significant first. -/
def digitsVal (l : Chars) : Nat :=
  l.foldl (fun n c => 10 * n + (c.toNat - 48)) 0

/-- Python `float()` restricted to the plain decimal shapes the telemetry
regexes can capture: optional sign, one or more digits, optionally a dot
followed by zero or more digits.  Everything else is `none`, standing for
a raised `ValueError`. -/
def pyFloat? (l : Chars) : Option ℚ :=
  let sgnRest : Bool × Chars :=
    match l with
    | '+' :: cs => (false, cs)
    | '-' :: cs => (true, cs)
    | _ => (false, l)
  let neg := sgnRest.1
  let r1 := sgnRest.2
  let ds := r1.takeWhile Char.isDigit
  let r2 := r1.dropWhile Char.isDigit
  if ds = [] then none
  else
    let val? : Option ℚ :=
      match r2 with
      | [] => some ((digitsVal ds : ℚ))
      | '.' :: fs =>
        if fs.all Char.isDigit then
          some ((digitsVal ds : ℚ) + (digitsVal fs : ℚ) / ((10 : ℚ) ^ fs.length))
        else none
      | _ => none
    val?.map (fun v => if neg then -v else v)

/-- Python `int()` restricted to an optional sign followed by decimal
digits; `none` stands for a raised `ValueError`. -/
def pyInt? (l : Chars) : Option Int :=
  let sgnRest : Bool × Chars :=
    match l with
    | '+' :: cs => (false, cs)
    | '-' :: cs => (true, cs)
    | _ => (false, l)
  let neg := sgnRest.1
  let r := sgnRest.2
  if r ≠ [] ∧ r.all Char.isDigit then
    some (if neg then -(digitsVal r : Int) else (digitsVal r : Int))
  else none

/-- Match a literal pattern case-insensitively (regex `re.IGNORECASE` on an
ASCII literal) at the head of the input; returns the rest of the input. -/
def matchLitCI : Chars → Chars → Option Chars
  | [], l => some l
  | _ :: _, [] => none
  | p :: ps, c :: cs => if c.toLower = p.toLower then matchLitCI ps cs else none

/-- Greedy match of the regex group `([+-]?\d+\.?\d*)` at the head of the
input, returning the captured characters.  No backtracking is needed: every
construct after `\d+` is optional, so the greedy parse is the regex parse. -/
def matchNum1 (l : Chars) : Option Chars :=
  let sgnRest : Chars × Chars :=
    match l with
    | c :: cs => if c = '+' || c = '-' then ([c], cs) else ([], l)
    | [] => ([], [])
  let sgn := sgnRest.1
  let r1 := sgnRest.2
  let ds := r1.takeWhile Char.isDigit
  if ds = [] then none
  else
    let r2 := r1.dropWhile Char.isDigit
    match r2 with
    | '.' :: r3 => some (sgn ++ ds ++ '.' :: r3.takeWhile Char.isDigit)
    | _ => some (sgn ++ ds)

/-- Greedy match of the regex group `([+-]?\d+(?:\.\d+)?)` at the head of
the input, returning the captured characters. -/
def matchNum2 (l : Chars) : Option Chars :=
  let sgnRest : Chars × Chars :=
    match l with
    | c :: cs => if c = '+' || c = '-' then ([c], cs) else ([], l)
    | [] => ([], [])
  let sgn := sgnRest.1
  let r1 := sgnRest.2
  let ds := r1.takeWhile Char.isDigit
  if ds = [] then none
  else
    let r2 := r1.dropWhile Char.isDigit
    match r2 with
    | '.' :: r3 =>
      let fs := r3.takeWhile Char.isDigit
      if fs = [] then some (sgn ++ ds) else some (sgn ++ ds ++ '.' :: fs)
    | _ => some (sgn ++ ds)

/-- The keyword part of the latitude regex `\[?latitude:\s*([+-]?\d+\.?\d*)\]?`. -/
def latKw : Chars := "latitude:".data

/-- The keyword part of the longitude regex `\[?longitude:\s*([+-]?\d+\.?\d*)\]?`. -/
def lonKw : Chars := "longitude:".data

/-- Attempt the coordinate regex `\[?KW\s*([+-]?\d+\.?\d*)\]?` at one start
position.  If the position holds `[`, the optional bracket is consumed (the
empty alternative cannot succeed there, since the keyword starts with a
letter); the trailing `\]?` never affects success. -/
def matchCoordAt (kw : Chars) (l : Chars) : Option Chars :=
  let core : Chars → Option Chars := fun r =>
    match matchLitCI kw r with
    | some r1 => matchNum1 (r1.dropWhile isReSpace)
    | none => none
  match l with
  | '[' :: rest => core rest
  | _ => core l

/-- `re.search` for the coordinate pattern: leftmost start position wins. -/
def searchCoord (kw : Chars) : Chars → Option Chars
  | [] => none
  | c :: cs =>
    match matchCoordAt kw (c :: cs) with
    | some g => some g
    | none => searchCoord kw cs

/-- Character class `[_\s-]` used between `abs`/`rel` and `alt`. -/
def isAltSep (c : Char) : Bool :=
  c = '_' || c = '-' || isReSpace c

/-- Literal `alt` of the altitude regexes. -/
def altLit : Chars := "alt".data

/-- Attempt the altitude regex `PRE[_\s-]?alt\s*[:=]\s*([+-]?\d+(?:\.\d+)?)`
(`PRE` being `abs` or `rel`) at one start position.  If a separator
character follows `PRE`, consuming it is the only way the match can
proceed (no separator character can begin `alt`). -/
def matchAltAt (pre : Chars) (l : Chars) : Option Chars :=
  match matchLitCI pre l with
  | none => none
  | some r1 =>
    let afterAlt : Option Chars :=
      match r1 with
      | [] => none
      | c :: cs => if isAltSep c then matchLitCI altLit cs else matchLitCI altLit r1
    match afterAlt with
    | none => none
    | some r2 =>
      match r2.dropWhile isReSpace with
      | [] => none
      | c :: cs =>
        if c = ':' || c = '=' then matchNum2 (cs.dropWhile isReSpace) else none

/-- `re.search` for the altitude pattern: leftmost start position wins. -/
def searchAlt (pre : Chars) : Chars → Option Chars
  | [] => none
  | c :: cs =>
    match matchAltAt pre (c :: cs) with
    | some g => some g
    | none => searchAlt pre cs

/-- Prefix `abs` of the absolute-altitude regex. -/
def absPre : Chars := "abs".data

/-- Prefix `rel` of the relative-altitude regex. -/
def relPre : Chars := "rel".data

/-- Drop characters up to and including the first `>`; `none` if there is
no `>`. -/
def afterGt : Chars → Option Chars
  | [] => none
  | c :: cs => if c = '>' then some cs else afterGt cs

/-- Fuel-indexed worker for `re.sub(r'<.*?>', '', line)`: at each `<` the
non-greedy `<.*?>` removes everything through the nearest following `>`;
a `<` with no later `>` is kept and scanning resumes after it.  The fuel
only serves Lean's termination; `stripTags` supplies enough of it. -/
def stripTagsFuel : Nat → Chars → Chars
  | 0, l => l
  | _, [] => []
  | fuel + 1, c :: cs =>
    if c = '<' then
      match afterGt cs with
      | some r => stripTagsFuel fuel r
      | none => c :: stripTagsFuel fuel cs
    else c :: stripTagsFuel fuel cs

/-- `re.sub(r'<.*?>', '', line)`: remove HTML-style tags. -/
def stripTags (l : Chars) : Chars := stripTagsFuel l.length l

/-- Python `'-->' in line`: some suffix starts with the three characters. -/
def containsArrow : Chars → Bool
  | [] => false
  | c :: cs => if (c :: cs).take 3 = ['-', '-', '>'] then true else containsArrow cs

/-- Python `line.split()[0]`: first maximal run of non-whitespace after
leading whitespace; `none` stands for the `IndexError` raised when the
line is all whitespace. -/
def pySplitFirst (l : Chars) : Option Chars :=
  let rest := l.dropWhile isPySpace
  if rest = [] then none
  else some (rest.takeWhile (fun x => !(isPySpace x)))

/-- One GPS telemetry sample appended by `parse_srt`. -/
structure Sample where
  timestamp : String
  lat : ℚ
  lon : ℚ
  alt : ℚ
deriving DecidableEq, Repr

/-- Body of the `try:` block run on one lookahead line of `parse_srt`
(src/app.py lines 49-75): strip tags, search both coordinate patterns,
convert, then search the altitude patterns (`abs` preferred over `rel`,
default 0).  `Except.error` stands for a raised `ValueError`; `Except.ok
none` means the coordinate patterns did not both match. -/
def tryLineBody (ts : String) (line : String) : Except String (Option Sample) :=
  match searchCoord latKw (stripTags line.data), searchCoord lonKw (stripTags line.data) with
  | some latS, some lonS =>
    match pyFloat? latS with
    | none => Except.error "ValueError"
    | some lat =>
      match pyFloat? lonS with
      | none => Except.error "ValueError"
      | some lon =>
        match searchAlt absPre (stripTags line.data) with
        | some absS =>
          match pyFloat? absS with
          | none => Except.error "ValueError"
          | some a => Except.ok (some ⟨ts, lat, lon, a⟩)
        | none =>
          match searchAlt relPre (stripTags line.data) with
          | some relS =>
            match pyFloat? relS with
            | none => Except.error "ValueError"
            | some r => Except.ok (some ⟨ts, lat, lon, r⟩)
          | none => Except.ok (some ⟨ts, lat, lon, 0⟩)
  | _, _ => Except.ok none

/-- One lookahead line of `parse_srt` with the surrounding
`try: ... except ValueError: pass`: an error yields no sample and
scanning continues, exactly like a non-matching line. -/
def tryLine (ts : String) (line : String) : Option Sample :=
  match tryLineBody ts line with
  | Except.ok r => r
  | Except.error _ => none

/-- The inner `for j in range(i+1, min(i+8, len(lines)))` loop: first line
that yields a sample wins (`break`); otherwise the block yields nothing. -/
def scanWindow (ts : String) : List String → Option Sample
  | [] => none
  | l :: ls =>
    match tryLine ts l with
    | some s => some s
    | none => scanWindow ts ls

/-- One iteration of the outer loop of `parse_srt` at index `i`: a line
containing `-->` starts a block whose timestamp is the line's first token
and whose lookahead window is the next (at most) 7 lines. -/
def blockSample (lines : List String) (i : Nat) : Option Sample :=
  let line := lines.getD i ""
  if containsArrow line.data then
    match pySplitFirst line.data with
    | some tsC => scanWindow (String.mk tsC) ((lines.drop (i + 1)).take 7)
    | none => none
  else none

/-- `parse_srt` (src/app.py lines 30-80) on the file's lines (each line
already right-stripped of its newline, as the source does). -/
def parse_srt (lines : List String) : List Sample :=
  (List.range lines.length).filterMap (blockSample lines)

/-- Exception-aware variant of one outer-loop iteration: `line.split()[0]`
is outside any `try`, so an all-whitespace marker line would raise
(`Except.error`); everything the inner `try` catches is already absorbed
by `tryLine`. -/
def blockSampleE (lines : List String) (i : Nat) : Except String (Option Sample) :=
  let line := lines.getD i ""
  if containsArrow line.data then
    match pySplitFirst line.data with
    | some tsC => Except.ok (scanWindow (String.mk tsC) ((lines.drop (i + 1)).take 7))
    | none => Except.error "IndexError"
  else Except.ok none

/-- Exception-aware `parse_srt`: accumulates the samples block by block,
propagating any uncaught exception. -/
def parse_srtE (lines : List String) : Except String (List Sample) :=
  (List.range lines.length).foldlM
    (fun acc i =>
      (blockSampleE lines i).map
        (fun s? => match s? with
          | some s => acc ++ [s]
          | none => acc))
    []

/-- An EXIF rational value (`exifread` `Ratio`, accessed as `.num`/`.den`).
The embedding uses Lean's total division on `ℚ`, so a (malformed)
zero denominator reads as 0 rather than raising. -/
structure ExifRational where
  num : Int
  den : Int
deriving DecidableEq, Repr

/-- `float(r.num) / float(r.den)`. -/
def exifToRat (r : ExifRational) : ℚ := (r.num : ℚ) / (r.den : ℚ)

/-- A degree/minute/second triple as stored in the EXIF GPS latitude and
longitude tags (`dms.values[0..2]`). -/
structure GpsDms where
  d : ExifRational
  m : ExifRational
  s : ExifRational
deriving DecidableEq, Repr

/-- The GPS-related EXIF tags `extract_gps_from_image` reads; a missing
tag (`tags.get(...)` returning `None`) is `none`. -/
structure ExifTags where
  gpsLat : Option GpsDms
  gpsLatRef : Option String
  gpsLon : Option GpsDms
  gpsLonRef : Option String
  gpsAlt : Option ExifRational
deriving DecidableEq, Repr

/-- `dms_to_decimal` (src/app.py lines 99-106). -/
def dms_to_decimal (dms : GpsDms) (ref : String) : ℚ :=
  let degrees := exifToRat dms.d
  let minutes := exifToRat dms.m
  let seconds := exifToRat dms.s
  let decimal := degrees + minutes / 60 + seconds / 3600
  if ref = "S" ∨ ref = "W" then -decimal else decimal

/-- The dictionary `extract_gps_from_image` returns on success. -/
structure GpsResult where
  lat : ℚ
  lon : ℚ
  alt : ℚ
deriving DecidableEq, Repr

/-- `extract_gps_from_image` (src/app.py lines 82-122) over the image's
metadata: `none` input stands for `exifread` failing to read or parse the
file (the outer `except` branch); with readable metadata the function
returns `None` when any of the four coordinate tags is missing.  The
altitude tag is optional and defaults to 0 (also the outcome of its inner
`except`, matched here by total division). -/
def extract_gps_from_image (meta : Option ExifTags) : Option GpsResult :=
  match meta with
  | none => none
  | some tags =>
    match tags.gpsLat, tags.gpsLatRef, tags.gpsLon, tags.gpsLonRef with
    | some la, some laRef, some lo, some loRef =>
      let lat := dms_to_decimal la laRef
      let lon := dms_to_decimal lo loRef
      let alt : ℚ :=
        match tags.gpsAlt with
        | some r => exifToRat r
        | none => 0
      some ⟨lat, lon, alt⟩
    | _, _, _, _ => none

/-- An entry of `images_data` built by `index` (src/app.py lines 276-282). -/
structure ImageRec where
  filename : String
  gps : GpsResult
deriving DecidableEq, Repr

/-- The image-scanning loop of `index`: each listed file's metadata is
extracted and the image is kept only when GPS data was found. -/
def scanImages (files : List (String × Option ExifTags)) : List ImageRec :=
  files.filterMap (fun fe => (extract_gps_from_image fe.2).map (fun g => ⟨fe.1, g⟩))

/-- Center/zoom computation of `create_map` (src/app.py lines 133-148):
mean of all coordinates from both sources, or the Toronto default with
zoom 12 when there are no samples at all. -/
def mapCenterZoom (images : List ImageRec) (video : List Sample) : (ℚ × ℚ) × Nat :=
  let allCoords :=
    images.map (fun img => (img.gps.lat, img.gps.lon)) ++
      video.map (fun pt => (pt.lat, pt.lon))
  if allCoords = [] then ((43.65, -79.38), 12)
  else
    (((allCoords.map Prod.fst).sum / (allCoords.length : ℚ),
      (allCoords.map Prod.snd).sum / (allCoords.length : ℚ)), 15)

/-- Python `s.split(sep)` for a one-character separator. -/
def splitOnChar (sep : Char) : Chars → List Chars
  | [] => [[]]
  | c :: cs =>
    if c = sep then [] :: splitOnChar sep cs
    else
      match splitOnChar sep cs with
      | [] => [[c]]
      | p :: ps => (c :: p) :: ps

/-- `int(h) * 3600 + int(mins) * 60 + int(s) + int(ms) / 1000.0`
(src/app.py line 226); `none` stands for `int()` raising `ValueError`. -/
def tsCombine (hh mm s ms : Chars) : Option ℚ :=
  match pyInt? hh, pyInt? mm, pyInt? s, pyInt? ms with
  | some hv, some mv, some sv, some msv =>
    some (((hv * 3600 + mv * 60 + sv : Int) : ℚ) + (msv : ℚ) / 1000)
  | _, _, _, _ => none

/-- The timestamp-to-seconds conversion of `create_map` (src/app.py lines
218-228): split on `:`; with exactly three parts (a three-element split),
split the last on `,` (defaulting milliseconds to `0`) and combine;
otherwise 0.  `none` stands for an uncaught exception (`int()` failing, or
the two-name unpacking of a comma-split with more than two parts). -/
def ts_to_seconds (ts : String) : Option ℚ :=
  match splitOnChar ':' ts.data with
  | [hh, mm, sms] =>
    if ',' ∈ sms then
      match splitOnChar ',' sms with
      | [s, ms] => tsCombine hh mm s ms
      | _ => none
    else tsCombine hh mm sms ['0']
  | _ => some 0

/-- The sampled video markers of `create_map` (src/app.py lines 215-249):
every 30th video point (indices 0, 30, 60, ...) becomes a circle marker
carrying its coordinate, timestamp, altitude, and seek-seconds value. -/
def videoMarkers (video : List Sample) : List ((ℚ × ℚ) × String × ℚ × Option ℚ) :=
  video.enum.filterMap
    (fun p =>
      if p.1 % 30 = 0 then
        some ((p.2.lat, p.2.lon), p.2.timestamp, p.2.alt, ts_to_seconds p.2.timestamp)
      else none)

/-- The geometric content of the layers `create_map` adds to the map:
image markers (coordinate and filename), the blue image track polyline
(only with at least two images), the red video track polyline, and the
sampled video markers. -/
structure MapLayers where
  center : ℚ × ℚ
  zoom : Nat
  imageMarkers : List ((ℚ × ℚ) × String)
  imageTrack : List (ℚ × ℚ)
  videoTrack : List (ℚ × ℚ)
  vidMarkers : List ((ℚ × ℚ) × String × ℚ × Option ℚ)
deriving DecidableEq, Repr

/-- Layer construction of `create_map` (src/app.py lines 124-260). -/
def buildMapLayers (images : List ImageRec) (video : List Sample) : MapLayers :=
  let cz := mapCenterZoom images video
  { center := cz.1
    zoom := cz.2
    imageMarkers := images.map (fun img => ((img.gps.lat, img.gps.lon), img.filename))
    imageTrack :=
      if images.length > 1 then images.map (fun img => (img.gps.lat, img.gps.lon)) else []
    videoTrack := video.map (fun pt => (pt.lat, pt.lon))
    vidMarkers := videoMarkers video }

/-- The rendered map document: the layer geometry plus the per-render
identifiers folium draws at random (modelled by a seed), which make two
renders of the same data differ textually but not geometrically. -/
structure MapDocument where
  renderId : Nat
  layers : MapLayers

/-- `create_map` as a document renderer: the per-call random identifier
`seed` is the only non-deterministic input. -/
def create_map (seed : Nat) (images : List ImageRec) (video : List Sample) : MapDocument :=
  ⟨seed, buildMapLayers images video⟩

/-! ### Helper lemmas -/

theorem getD_append_len {α : Type} (pre : List α) (y : α) (t : List α) (d : α) :
    (pre ++ y :: t).getD pre.length d = y := by
  induction pre with
  | nil => rfl
  | cons a l ih =>
    simp only [List.cons_append, List.length_cons, List.getD_cons_succ]
    exact ih

theorem drop_append_len {α : Type} (pre : List α) (y : α) (t : List α) :
    (pre ++ y :: t).drop (pre.length + 1) = t := by
  induction pre with
  | nil => rfl
  | cons a l ih =>
    simp only [List.cons_append, List.length_cons, List.drop_succ_cons]
    exact ih

theorem scanWindow_take (ts : String) (s : Sample) :
    ∀ (w1 : List String) (l : String) (rest : List String) (n : Nat),
      (∀ x ∈ w1, tryLine ts x = none) → tryLine ts l = some s → w1.length < n →
      scanWindow ts ((w1 ++ l :: rest).take n) = some s := by
  intro w1
  induction w1 with
  | nil =>
    intro l rest n h1 h2 hn
    match n, hn with
    | m + 1, _ => simp [scanWindow, h2]
  | cons a w ih =>
    intro l rest n h1 h2 hn
    match n, hn with
    | m + 1, hn =>
      have ha : tryLine ts a = none := h1 a (List.mem_cons_self a w)
      simp only [List.cons_append, List.take_succ_cons, scanWindow, ha]
      exact ih l rest m (fun x hx => h1 x (List.mem_cons_of_mem a hx)) h2
        (by simpa using Nat.lt_of_succ_lt_succ hn)

theorem scanWindow_none (ts : String) :
    ∀ (w : List String), (∀ x ∈ w, tryLine ts x = none) → scanWindow ts w = none := by
  intro w
  induction w with
  | nil => intro _; rfl
  | cons a t ih =>
    intro h
    simp only [scanWindow, h a (List.mem_cons_self a t)]
    exact ih (fun x hx => h x (List.mem_cons_of_mem a hx))

theorem scanWindow_append_first (ts : String) (s : Sample) :
    ∀ (w1 : List String) (l : String) (w2 : List String),
      (∀ x ∈ w1, tryLine ts x = none) → tryLine ts l = some s →
      scanWindow ts (w1 ++ l :: w2) = some s := by
  intro w1
  induction w1 with
  | nil => intro l w2 _ h2; simp [scanWindow, h2]
  | cons a w ih =>
    intro l w2 h1 h2
    simp only [List.cons_append, scanWindow, h1 a (List.mem_cons_self a w)]
    exact ih l w2 (fun x hx => h1 x (List.mem_cons_of_mem a hx)) h2

theorem filterMap_filter_ne {α β : Type} [DecidableEq α] (f : α → Option β) (i : α)
    (h : f i = none) :
    ∀ l : List α, l.filterMap f = (l.filter (fun j => j ≠ i)).filterMap f := by
  intro l
  induction l with
  | nil => rfl
  | cons a t ih =>
    by_cases ha : a = i
    · subst ha
      simp [List.filterMap_cons, List.filter_cons, h, ih]
    · simp [List.filterMap_cons, List.filter_cons, ha, ih]

theorem tryLineBody_timestamp (ts line : String) (s : Sample) :
    tryLineBody ts line = Except.ok (some s) → s.timestamp = ts := by
  intro h
  unfold tryLineBody at h
  repeat' split at h
  all_goals first
    | (cases h; rfl)
    | simp at h

theorem tryLine_timestamp (ts line : String) (s : Sample) :
    tryLine ts line = some s → s.timestamp = ts := by
  unfold tryLine
  intro h
  split at h
  · next r heq =>
    subst h
    exact tryLineBody_timestamp ts line s heq
  · exact absurd h (by simp)

theorem containsArrow_mem : ∀ l : Chars, containsArrow l = true → '-' ∈ l := by
  intro l
  induction l with
  | nil => simp [containsArrow]
  | cons c cs ih =>
    intro h
    simp only [containsArrow] at h
    by_cases htake : (c :: cs).take 3 = ['-', '-', '>']
    · have hc : c = '-' := by
        rw [List.take_succ_cons] at htake
        exact (List.cons.injEq _ _ _ _ ▸ htake).1
      rw [hc]
      exact List.mem_cons_self _ _
    · rw [if_neg htake] at h
      exact List.mem_cons_of_mem _ (ih h)

theorem pySplitFirst_isSome (l : Chars) (h : containsArrow l = true) :
    ∃ t : Chars, pySplitFirst l = some t := by
  have hmem := containsArrow_mem l h
  have hne : l.dropWhile isPySpace ≠ [] := by
    intro hnil
    have hall := List.dropWhile_eq_nil_iff.mp hnil
    have := hall '-' hmem
    simp [isPySpace] at this
  unfold pySplitFirst
  rw [if_neg hne]
  exact ⟨_, rfl⟩

theorem blockSampleE_ok (lines : List String) (i : Nat) :
    blockSampleE lines i = Except.ok (blockSample lines i) := by
  unfold blockSampleE blockSample
  by_cases h : containsArrow (lines.getD i "").data = true
  · rw [if_pos h, if_pos h]
    obtain ⟨t, ht⟩ := pySplitFirst_isSome _ h
    rw [ht]
  · rw [if_neg h, if_neg h]

theorem parse_srt_fold (lines : List String) :
    ∀ (l : List Nat) (acc : List Sample),
      (l.foldlM
        (fun acc i =>
          (blockSampleE lines i).map
            (fun s? => match s? with
              | some s => acc ++ [s]
              | none => acc))
        acc : Except String (List Sample)) =
      Except.ok (acc ++ l.filterMap (blockSample lines)) := by
  intro l
  induction l with
  | nil =>
    intro acc
    simp only [List.foldlM_nil, List.filterMap_nil, List.append_nil]
    rfl
  | cons a t ih =>
    intro acc
    rw [List.foldlM_cons, blockSampleE_ok]
    rcases hb : blockSample lines a with _ | s
    · simp only [hb, List.filterMap_cons]
      exact ih acc
    · simp only [hb, List.filterMap_cons]
      refine (ih (acc ++ [s])).trans ?_
      rw [List.append_assoc]
      rfl

theorem splitOnChar_nosep (sep : Char) :
    ∀ l : Chars, (∀ x ∈ l, x ≠ sep) → splitOnChar sep l = [l] := by
  intro l
  induction l with
  | nil => intro _; rfl
  | cons c cs ih =>
    intro h
    have hc : ¬c = sep := h c (List.mem_cons_self c cs)
    simp only [splitOnChar, if_neg hc]
    rw [ih (fun x hx => h x (List.mem_cons_of_mem c hx))]

theorem splitOnChar_sep_append (sep : Char) (rest : Chars) :
    ∀ xs : Chars, (∀ x ∈ xs, x ≠ sep) →
      splitOnChar sep (xs ++ sep :: rest) = xs :: splitOnChar sep rest := by
  intro xs
  induction xs with
  | nil => intro _; simp [splitOnChar]
  | cons c cs ih =>
    intro h
    have hc : ¬c = sep := h c (List.mem_cons_self c cs)
    simp only [List.cons_append, splitOnChar, if_neg hc, List.append_eq]
    rw [ih (fun x hx => h x (List.mem_cons_of_mem c hx))]

/-! ### Claim theorems

Rational arithmetic in Batteries is `@[irreducible]`; concrete evaluations
of the embedded functions below need it reducible for `decide`/`rfl`. -/

section ClaimTheorems

set_option allowUnsafeReducibility true
attribute [local semireducible] Rat.ofScientific Rat.add Rat.mul Rat.inv Rat.sub Rat.div

/-- Claim C1: `dms_to_decimal` computes degrees + minutes/60 + seconds/3600,
negated exactly when the hemisphere reference is S or W, and
`extract_gps_from_image` applies it to both coordinates; 43°39'0"N gives
exactly 43.65 and 79°23'0"W gives -(79 + 23/60), within 1/10000 of
-79.3833. -/
theorem c1_dms_to_decimal_conversion :
    (∀ (la lo : GpsDms) (laRef loRef : String) (altT : Option ExifRational),
      extract_gps_from_image (some ⟨some la, some laRef, some lo, some loRef, altT⟩) =
        some ⟨dms_to_decimal la laRef, dms_to_decimal lo loRef,
          match altT with
          | some r => exifToRat r
          | none => 0⟩) ∧
    (∀ (dms : GpsDms) (ref : String),
      dms_to_decimal dms ref =
        (if ref = "S" ∨ ref = "W" then (-1 : ℚ) else 1) *
          (exifToRat dms.d + exifToRat dms.m / 60 + exifToRat dms.s / 3600)) ∧
    dms_to_decimal ⟨⟨43, 1⟩, ⟨39, 1⟩, ⟨0, 1⟩⟩ "N" = 43.65 ∧
    dms_to_decimal ⟨⟨79, 1⟩, ⟨23, 1⟩, ⟨0, 1⟩⟩ "W" = -(79 + 23 / 60 : ℚ) ∧
    |dms_to_decimal ⟨⟨79, 1⟩, ⟨23, 1⟩, ⟨0, 1⟩⟩ "W" - (-79.3833 : ℚ)| < 1 / 10000 := by
  refine ⟨fun la lo laRef loRef altT => rfl, fun dms ref => ?_, by decide, by decide, by decide⟩
  simp only [dms_to_decimal]
  by_cases h : ref = "S" ∨ ref = "W"
  · rw [if_pos h, if_pos h]; ring
  · rw [if_neg h, if_neg h]; ring

/-- Claim C9: rendering the map twice from the same image records and video
track yields identical layer geometry (same marker count, coordinates, and
path vertex sequences), whatever per-render identifiers differ. -/
theorem c9_render_idempotent_layers :
    ∀ (seed1 seed2 : Nat) (images : List ImageRec) (video : List Sample),
      (create_map seed1 images video).layers = (create_map seed2 images video).layers ∧
      (create_map seed1 images video).layers.imageMarkers.length =
        (create_map seed2 images video).layers.imageMarkers.length ∧
      (create_map seed1 images video).layers.vidMarkers =
        (create_map seed2 images video).layers.vidMarkers ∧
      (create_map seed1 images video).layers.imageTrack =
        (create_map seed2 images video).layers.imageTrack ∧
      (create_map seed1 images video).layers.videoTrack =
        (create_map seed2 images video).layers.videoTrack :=
  fun _ _ _ _ => ⟨rfl, rfl, rfl, rfl, rfl⟩

/-- Claim C10: the lookahead window is not truncated at the next `-->`
marker: in this input the first block has no coordinate line of its own,
yet emits a sample pairing its own start timestamp with the second block's
coordinates, which also appear in the second block's own sample. -/
theorem c10_window_crosses_next_marker :
    parse_srt ["1", "00:00:00,000 --> 00:00:01,000", "junk", "2",
        "00:00:01,000 --> 00:00:02,000",
        "[latitude: 43.65] [longitude: -79.38] [rel_alt: 10.0]"] =
      [⟨"00:00:00,000", 43.65, -79.38, 10⟩, ⟨"00:00:01,000", 43.65, -79.38, 10⟩] := by
  rfl

/-- Claim C2: when a block's `-->` marker line is followed, within the
lookahead window (the next lines `j` with `i < j < i+8`, here the first
matching line is `l` after the `w1` non-matching lines, `w1.length < 7`),
by a line on which latitude and longitude parse, `parse_srt` yields one
sample for that block carrying the marker's start timestamp and the data
parsed from that line. -/
theorem c2_block_yields_sample
    (pre w1 : List String) (marker l : String) (rest : List String)
    (tsC : Chars) (s : Sample)
    (hm : containsArrow marker.data = true)
    (hts : pySplitFirst marker.data = some tsC)
    (hw : w1.length < 7)
    (h1 : ∀ x ∈ w1, tryLine (String.mk tsC) x = none)
    (h2 : tryLine (String.mk tsC) l = some s) :
    blockSample (pre ++ marker :: (w1 ++ l :: rest)) pre.length = some s ∧
    s ∈ parse_srt (pre ++ marker :: (w1 ++ l :: rest)) ∧
    s.timestamp = String.mk tsC := by
  have hblock : blockSample (pre ++ marker :: (w1 ++ l :: rest)) pre.length = some s := by
    unfold blockSample
    rw [getD_append_len]
    rw [if_pos hm, hts, drop_append_len]
    exact scanWindow_take (String.mk tsC) s w1 l rest 7 h1 h2 hw
  refine ⟨hblock, ?_, tryLine_timestamp _ _ _ h2⟩
  unfold parse_srt
  refine List.mem_filterMap.mpr ⟨pre.length, List.mem_range.mpr ?_, hblock⟩
  simp [List.length_append]

/-- Claim C2 witness: the spec's end-to-end scenario, a marker immediately
followed by `[latitude: 43.65] [longitude: -79.38] [rel_alt: 10.0]`. -/
theorem c2_block_yields_sample_witness :
    blockSample ["00:00:00,000 --> 00:00:01,000",
        "[latitude: 43.65] [longitude: -79.38] [rel_alt: 10.0]"] 0 =
      some ⟨"00:00:00,000", 43.65, -79.38, 10⟩ ∧
    (⟨"00:00:00,000", 43.65, -79.38, 10⟩ : Sample) ∈
      parse_srt ["00:00:00,000 --> 00:00:01,000",
        "[latitude: 43.65] [longitude: -79.38] [rel_alt: 10.0]"] ∧
    (⟨"00:00:00,000", 43.65, -79.38, 10⟩ : Sample).timestamp = String.mk "00:00:00,000".data :=
  c2_block_yields_sample [] [] "00:00:00,000 --> 00:00:01,000"
    "[latitude: 43.65] [longitude: -79.38] [rel_alt: 10.0]" [] "00:00:00,000".data
    ⟨"00:00:00,000", 43.65, -79.38, 10⟩
    (by decide) (by decide) (by decide) (by simp) (by decide)

/-- Claim C3: a block emits at most one sample, always from the first
window line whose coordinates parse (whatever follows that line in the
window is ignored); a block none of whose window lines parse contributes
no sample, and all other blocks are still processed. -/
theorem c3_first_match_and_no_match
    (pre : List String) (marker : String) (tail w1 : List String) (l : String)
    (tsC : Chars) (s : Sample)
    (hm : containsArrow marker.data = true)
    (hts : pySplitFirst marker.data = some tsC)
    (h1 : ∀ x ∈ w1, tryLine (String.mk tsC) x = none)
    (h2 : tryLine (String.mk tsC) l = some s) :
    (∀ w2 : List String, scanWindow (String.mk tsC) (w1 ++ l :: w2) = some s) ∧
    ((∀ x ∈ tail.take 7, tryLine (String.mk tsC) x = none) →
      blockSample (pre ++ marker :: tail) pre.length = none) ∧
    (blockSample (pre ++ marker :: tail) pre.length = none →
      parse_srt (pre ++ marker :: tail) =
        ((List.range (pre ++ marker :: tail).length).filter
          (fun j => j ≠ pre.length)).filterMap (blockSample (pre ++ marker :: tail))) := by
  refine ⟨fun w2 => scanWindow_append_first (String.mk tsC) s w1 l w2 h1 h2, ?_, ?_⟩
  · intro hnone
    unfold blockSample
    rw [getD_append_len]
    rw [if_pos hm, hts, drop_append_len]
    exact scanWindow_none (String.mk tsC) (tail.take 7) hnone
  · intro hb
    unfold parse_srt
    exact filterMap_filter_ne (blockSample (pre ++ marker :: tail)) pre.length hb _

/-- Claim C3 witness: first matching line wins even with a matching line
after it in the window, and a marker whose window holds no parseable line
contributes nothing while the other block is still parsed. -/
theorem c3_first_match_and_no_match_witness :
    scanWindow (String.mk "00:00:05,000".data)
        (["junk"] ++ "[latitude: 1.5] [longitude: 2.5]" ::
          ["[latitude: 9] [longitude: 9]"]) =
      some ⟨"00:00:05,000", 1.5, 2.5, 0⟩ ∧
    blockSample (["00:00:05,000 --> 00:00:06,000"] ++ "00:00:05,000 --> 00:00:06,000" :: ["nope"]) 1 =
      none ∧
    parse_srt (["00:00:05,000 --> 00:00:06,000"] ++ "00:00:05,000 --> 00:00:06,000" :: ["nope"]) =
      ((List.range (["00:00:05,000 --> 00:00:06,000"] ++
          "00:00:05,000 --> 00:00:06,000" :: ["nope"]).length).filter
        (fun j => j ≠ 1)).filterMap
        (blockSample (["00:00:05,000 --> 00:00:06,000"] ++
          "00:00:05,000 --> 00:00:06,000" :: ["nope"])) := by
  have h := c3_first_match_and_no_match ["00:00:05,000 --> 00:00:06,000"]
    "00:00:05,000 --> 00:00:06,000" ["nope"] ["junk"]
    "[latitude: 1.5] [longitude: 2.5]" "00:00:05,000".data
    ⟨"00:00:05,000", 1.5, 2.5, 0⟩
    (by decide) (by decide) (by decide) (by decide)
  refine ⟨h.1 ["[latitude: 9] [longitude: 9]"], h.2.1 (by decide), h.2.2 (h.2.1 (by decide))⟩

/-- Claim C4: once a cleaned line yields both coordinates, the sample's
altitude comes from the same line: an absolute-altitude field wins when
present, otherwise a relative-altitude field, otherwise 0. -/
theorem c4_altitude_preference
    (ts line : String) (latS lonS : Chars) (lat lon : ℚ)
    (hlat : searchCoord latKw (stripTags line.data) = some latS)
    (hlon : searchCoord lonKw (stripTags line.data) = some lonS)
    (hlatv : pyFloat? latS = some lat)
    (hlonv : pyFloat? lonS = some lon) :
    (∀ (absS : Chars) (a : ℚ),
      searchAlt absPre (stripTags line.data) = some absS → pyFloat? absS = some a →
      tryLine ts line = some ⟨ts, lat, lon, a⟩) ∧
    (searchAlt absPre (stripTags line.data) = none →
      ∀ (relS : Chars) (r : ℚ),
        searchAlt relPre (stripTags line.data) = some relS → pyFloat? relS = some r →
        tryLine ts line = some ⟨ts, lat, lon, r⟩) ∧
    (searchAlt absPre (stripTags line.data) = none →
      searchAlt relPre (stripTags line.data) = none →
      tryLine ts line = some ⟨ts, lat, lon, 0⟩) := by
  refine ⟨?_, ?_, ?_⟩
  · intro absS a habs habsv
    unfold tryLine tryLineBody
    simp only [hlat, hlon, hlatv, hlonv, habs, habsv]
  · intro habs relS r hrel hrelv
    unfold tryLine tryLineBody
    simp only [hlat, hlon, hlatv, hlonv, habs, hrel, hrelv]
  · intro habs hrel
    unfold tryLine tryLineBody
    simp only [hlat, hlon, hlatv, hlonv, habs, hrel]

/-- Claim C4 witness: with both `rel_alt` and `abs_alt` on the line the
absolute value 50.5 is chosen; with neither, altitude defaults to 0. -/
theorem c4_altitude_preference_witness :
    tryLine "t" "[latitude: 1.5] [longitude: 2.5] [rel_alt: 10.0 abs_alt: 50.5]" =
      some ⟨"t", 1.5, 2.5, 50.5⟩ ∧
    tryLine "t" "[latitude: 1.5] [longitude: 2.5]" = some ⟨"t", 1.5, 2.5, 0⟩ := by
  constructor
  · exact (c4_altitude_preference "t"
      "[latitude: 1.5] [longitude: 2.5] [rel_alt: 10.0 abs_alt: 50.5]"
      "1.5".data "2.5".data 1.5 2.5 (by decide) (by decide) (by decide) (by decide)).1
      "50.5".data 50.5 (by decide) (by decide)
  · exact (c4_altitude_preference "t" "[latitude: 1.5] [longitude: 2.5]"
      "1.5".data "2.5".data 1.5 2.5 (by decide) (by decide) (by decide) (by decide)).2.2
      (by decide) (by decide)

/-- Claim C5: `parse_srt` is total and never raises: the exception-aware
run always returns `ok` with the same samples (the only conversion outside
a `try` is the marker-line token extraction, which cannot fail on a line
containing `-->`), and a window line that yields no sample (no match, or a
conversion failure absorbed by `except ValueError: pass`) just moves the
scan to the next line. -/
theorem c5_total_never_raises :
    (∀ lines : List String, parse_srtE lines = Except.ok (parse_srt lines)) ∧
    (∀ (ts line : String) (ws : List String),
      tryLine ts line = none →
      scanWindow ts (line :: ws) = scanWindow ts ws) := by
  constructor
  · intro lines
    unfold parse_srtE parse_srt
    exact (parse_srt_fold lines (List.range lines.length) []).trans (by rw [List.nil_append])
  · intro ts line ws h
    simp [scanWindow, h]

/-- Claim C5 witness: a malformed telemetry file (text where a number is
expected, an all-whitespace line, a marker with no parseable window line)
still returns `ok`, and a non-yielding line is skipped. -/
theorem c5_total_never_raises_witness :
    parse_srtE ["00:00:00,000 --> 00:00:01,000", "[latitude: abc] [longitude: 2]", "   "] =
      Except.ok (parse_srt
        ["00:00:00,000 --> 00:00:01,000", "[latitude: abc] [longitude: 2]", "   "]) ∧
    scanWindow "t" ("junk" :: ["[latitude: 1] [longitude: 2]"]) =
      scanWindow "t" ["[latitude: 1] [longitude: 2]"] :=
  ⟨c5_total_never_raises.1 _,
   c5_total_never_raises.2 "t" "junk" ["[latitude: 1] [longitude: 2]"] (by decide)⟩

/-- Claim C6: `extract_gps_from_image` returns `none` exactly when the
metadata cannot be read/parsed or one of the four GPS coordinate tags is
missing, and such an image is simply omitted from the scanned image
records while every other file is still processed. -/
theorem c6_no_gps_none_and_skip :
    (∀ meta : Option ExifTags,
      (extract_gps_from_image meta = none ↔
        meta = none ∨ ∃ t, meta = some t ∧
          (t.gpsLat = none ∨ t.gpsLatRef = none ∨ t.gpsLon = none ∨ t.gpsLonRef = none))) ∧
    (∀ (l1 l2 : List (String × Option ExifTags)) (f : String) (meta : Option ExifTags),
      extract_gps_from_image meta = none →
      scanImages (l1 ++ (f, meta) :: l2) = scanImages l1 ++ scanImages l2) := by
  constructor
  · intro meta
    rcases meta with _ | t
    · simp [extract_gps_from_image]
    · rcases t with ⟨la, laRef, lo, loRef, altT⟩
      rcases la with _ | la <;> rcases laRef with _ | laRef <;>
        rcases lo with _ | lo <;> rcases loRef with _ | loRef <;>
        simp [extract_gps_from_image]
  · intro l1 l2 f meta h
    unfold scanImages
    rw [List.filterMap_append, List.filterMap_cons]
    simp [h]

/-- Claim C6 witness: a record whose latitude-reference tag is missing
reads as "no GPS data", and a file with unreadable metadata is skipped
while the image with full GPS tags is kept. -/
theorem c6_no_gps_none_and_skip_witness :
    extract_gps_from_image
      (some ⟨some ⟨⟨1, 1⟩, ⟨2, 1⟩, ⟨3, 1⟩⟩, none, some ⟨⟨4, 1⟩, ⟨5, 1⟩, ⟨6, 1⟩⟩,
        some "W", none⟩) = none ∧
    scanImages ([("a.jpg", some ⟨some ⟨⟨43, 1⟩, ⟨39, 1⟩, ⟨0, 1⟩⟩, some "N",
        some ⟨⟨79, 1⟩, ⟨23, 1⟩, ⟨0, 1⟩⟩, some "W", none⟩)] ++ ("b.jpg", none) :: []) =
      scanImages [("a.jpg", some ⟨some ⟨⟨43, 1⟩, ⟨39, 1⟩, ⟨0, 1⟩⟩, some "N",
        some ⟨⟨79, 1⟩, ⟨23, 1⟩, ⟨0, 1⟩⟩, some "W", none⟩)] ++ scanImages [] :=
  ⟨(c6_no_gps_none_and_skip.1 _).mpr
      (Or.inr ⟨_, rfl, Or.inr (Or.inl rfl)⟩),
   c6_no_gps_none_and_skip.2 [("a.jpg", some ⟨some ⟨⟨43, 1⟩, ⟨39, 1⟩, ⟨0, 1⟩⟩, some "N",
      some ⟨⟨79, 1⟩, ⟨23, 1⟩, ⟨0, 1⟩⟩, some "W", none⟩)] [] "b.jpg" none rfl⟩

/-- Claim C7: the map center is the arithmetic mean of the latitudes and
of the longitudes over all image and video samples combined; with no
samples at all it is the fixed default (43.65, -79.38) at zoom 12, and the
divisor is nonzero whenever a division happens. -/
theorem c7_center_mean_or_default :
    ∀ (images : List ImageRec) (video : List Sample),
      (images.length + video.length = 0 →
        mapCenterZoom images video = ((43.65, -79.38), 12)) ∧
      (images.length + video.length ≠ 0 →
        ((images.length + video.length : ℚ) ≠ 0 ∧
          mapCenterZoom images video =
            ((((images.map fun img => img.gps.lat).sum +
                  (video.map fun pt => pt.lat).sum) /
                ((images.length + video.length : ℕ) : ℚ),
              ((images.map fun img => img.gps.lon).sum +
                  (video.map fun pt => pt.lon).sum) /
                ((images.length + video.length : ℕ) : ℚ)), 15))) := by
  intro images video
  constructor
  · intro h0
    have h1 : images = [] := List.length_eq_zero.mp (by omega)
    have h2 : video = [] := List.length_eq_zero.mp (by omega)
    subst h1; subst h2
    rfl
  · intro hne
    have hq : ((images.length + video.length : ℕ) : ℚ) ≠ 0 := by
      exact_mod_cast Nat.cast_ne_zero.mpr hne
    refine ⟨by exact_mod_cast hq, ?_⟩
    unfold mapCenterZoom
    have hcoords : ¬((images.map fun img => (img.gps.lat, img.gps.lon)) ++
        (video.map fun pt => (pt.lat, pt.lon))) = [] := by
      intro h0
      rcases List.append_eq_nil.mp h0 with ⟨ha, hb⟩
      rw [List.map_eq_nil_iff] at ha hb
      subst ha; subst hb
      simp at hne
    rw [if_neg hcoords]
    simp only [List.map_append, List.map_map, List.sum_append, List.length_append,
      List.length_map, Function.comp]
    rfl

/-- Claim C7 witness: the empty aggregate yields the default view, and two
video samples at (1,2) and (3,4) yield the mean center (2,3) at zoom 15. -/
theorem c7_center_mean_or_default_witness :
    mapCenterZoom [] [] = ((43.65, -79.38), 12) ∧
    mapCenterZoom [] [⟨"a", 1, 2, 0⟩, ⟨"b", 3, 4, 0⟩] = ((2, 3), 15) := by
  constructor
  · exact (c7_center_mean_or_default [] []).1 rfl
  · have h := ((c7_center_mean_or_default [] [⟨"a", 1, 2, 0⟩, ⟨"b", 3, 4, 0⟩]).2
      (by decide)).2
    rw [h]
    decide

/-- Claim C8: for a sampled video marker whose timestamp has the
`HH:MM:SS,mmm` shape, the derived seconds value is
hours*3600 + minutes*60 + seconds + milliseconds/1000, and that value is
the one carried by the marker in the rendered video layer. -/
theorem c8_timestamp_to_seconds
    (ts : String) (hd md sd msd : Chars) (hv mv sv msv : Int)
    (hdata : ts.data = hd ++ ':' :: (md ++ ':' :: (sd ++ ',' :: msd)))
    (hhd : ∀ x ∈ hd, x ≠ ':')
    (hmd : ∀ x ∈ md, x ≠ ':')
    (hsd : ∀ x ∈ sd, x ≠ ':' ∧ x ≠ ',')
    (hmsd : ∀ x ∈ msd, x ≠ ':' ∧ x ≠ ',')
    (hh : pyInt? hd = some hv) (hm : pyInt? md = some mv)
    (hs : pyInt? sd = some sv) (hms : pyInt? msd = some msv) :
    ts_to_seconds ts = some (((hv * 3600 + mv * 60 + sv : Int) : ℚ) + (msv : ℚ) / 1000) ∧
    (∀ (video : List Sample) (i : Nat) (pt : Sample),
      (i, pt) ∈ video.enum → i % 30 = 0 → pt.timestamp = ts →
      ((pt.lat, pt.lon), pt.timestamp, pt.alt,
        some (((hv * 3600 + mv * 60 + sv : Int) : ℚ) + (msv : ℚ) / 1000)) ∈
        videoMarkers video) := by
  have hsms : ∀ x ∈ sd ++ ',' :: msd, x ≠ ':' := by
    intro x hx
    rcases List.mem_append.mp hx with hx1 | hx1
    · exact (hsd x hx1).1
    · rcases List.mem_cons.mp hx1 with hx2 | hx2
      · subst hx2; decide
      · exact (hmsd x hx2).1
  have hparts : splitOnChar ':' ts.data = [hd, md, sd ++ ',' :: msd] := by
    rw [hdata]
    rw [splitOnChar_sep_append ':' (md ++ ':' :: (sd ++ ',' :: msd)) hd hhd]
    rw [splitOnChar_sep_append ':' (sd ++ ',' :: msd) md hmd]
    rw [splitOnChar_nosep ':' (sd ++ ',' :: msd) hsms]
  have hin : ',' ∈ sd ++ ',' :: msd :=
    List.mem_append.mpr (Or.inr (List.mem_cons_self ',' msd))
  have hsplit2 : splitOnChar ',' (sd ++ ',' :: msd) = [sd, msd] := by
    rw [splitOnChar_sep_append ',' msd sd (fun x hx => (hsd x hx).2)]
    rw [splitOnChar_nosep ',' msd (fun x hx => (hmsd x hx).2)]
  have hmain : ts_to_seconds ts =
      some (((hv * 3600 + mv * 60 + sv : Int) : ℚ) + (msv : ℚ) / 1000) := by
    unfold ts_to_seconds
    simp only [hparts, hin, if_true, hsplit2, tsCombine, hh, hm, hs, hms]
  refine ⟨hmain, ?_⟩
  intro video i pt hmem h30 htspt
  unfold videoMarkers
  refine List.mem_filterMap.mpr ⟨(i, pt), hmem, ?_⟩
  rw [if_pos h30, htspt, hmain]

/-- Claim C8 witness: `"00:00:12,345"` maps to 12.345 and
`"01:00:00,000"` to 3600, and the sampled marker at index 0 carries the
12.345 seek value. -/
theorem c8_timestamp_to_seconds_witness :
    ts_to_seconds "00:00:12,345" = some (12.345 : ℚ) ∧
    ts_to_seconds "01:00:00,000" = some (3600 : ℚ) ∧
    ((1, 2), "00:00:12,345", 5, some (12.345 : ℚ)) ∈
      videoMarkers [⟨"00:00:12,345", 1, 2, 5⟩] := by
  have h1 := c8_timestamp_to_seconds "00:00:12,345" "00".data "00".data "12".data "345".data
    0 0 12 345 (by decide) (by decide) (by decide) (by decide) (by decide)
    (by decide) (by decide) (by decide) (by decide)
  have h2 := c8_timestamp_to_seconds "01:00:00,000" "01".data "00".data "00".data "000".data
    1 0 0 0 (by decide) (by decide) (by decide) (by decide) (by decide)
    (by decide) (by decide) (by decide) (by decide)
  refine ⟨h1.1.trans (by decide), h2.1.trans (by decide), ?_⟩
  have h3 := h1.2 [⟨"00:00:12,345", 1, 2, 5⟩] 0 ⟨"00:00:12,345", 1, 2, 5⟩
    (by decide) (by decide) rfl
  convert h3 using 3
